import Mathlib

/-!
Shallow embedding of the audio capture / transcoding / transcription /
answer-generation pipeline of the oic repository.

Sources embedded:
- src/electron/ipcHandlers.ts : convertWebMToWAV, the transcribe-audio
  handler, and the generate-behavioral-answer handler;
- src/src/components/AudioRecorder.tsx : startRecording encoding selection,
  the mediaRecorder onstop handler, and processAudio.

Machine-level effects are made explicit: the filesystem state of the two
temporary files of convertWebMToWAV is a record of booleans, host failures
(microphone denied, MediaRecorder construction throwing, ffmpeg failing,
the converted file being unreadable, provider errors) are boolean or
Except-valued parameters, and every toast shown to the user is collected
in a list.
-/

namespace OIC

/-- Severity tag of a user-visible toast notice
(the third argument of showToast in AudioRecorder.tsx). -/
inductive Sev
  | success
  | neutral
  | error
deriving DecidableEq, Repr

/-- One user-visible notice: showToast(title, message, severity). -/
structure Toast where
  title : String
  message : String
  sev : Sev
deriving DecidableEq, Repr

/-! ### String helpers mirroring the JavaScript string operations used -/

/-- JavaScript String.toLowerCase (ASCII suffices for the filenames used). -/
def strLower (s : String) : String :=
  ⟨s.data.map Char.toLower⟩

/-- Whether the list starts with the given pattern
(helper for substring containment). -/
def listLeads : List Char → List Char → Bool
  | _, [] => true
  | [], _ :: _ => false
  | a :: as, b :: bs => a = b && listLeads as bs

/-- Whether the pattern occurs as a contiguous sublist. -/
def charsInclude : List Char → List Char → Bool
  | [], pat => pat.isEmpty
  | c :: rest, pat => listLeads (c :: rest) pat || charsInclude rest pat

/-- JavaScript String.includes. -/
def strIncludes (s pat : String) : Bool :=
  charsInclude s.data pat.data

/-- JavaScript String.startsWith. -/
def strLeads (s pat : String) : Bool :=
  listLeads s.data pat.data

/-- JavaScript String.endsWith. -/
def strTrails (s pat : String) : Bool :=
  listLeads s.data.reverse pat.data.reverse

/-- ASCII whitespace (covers the characters relevant to transcripts). -/
def isJsWhite (c : Char) : Bool :=
  c = ' ' || c = '\t' || c = '\n' || c = '\r'

/-- JavaScript String.trim (restricted to ASCII whitespace). -/
def strTrim (s : String) : String :=
  ⟨((s.data.dropWhile isJsWhite).reverse.dropWhile isJsWhite).reverse⟩

/-! ### convertWebMToWAV (src/electron/ipcHandlers.ts, lines 19-66)

The function writes the WebM buffer to a temporary input file, runs ffmpeg
into a temporary output file, reads the output back, and resolves with the
WAV bytes.  The model tracks which of the two temporary files still exist
when the promise settles.  The environment records which of the three
fallible host steps fails: the synchronous setup (writeFileSync or the
ffmpeg invocation throwing), the ffmpeg conversion (the error event), and
the readFileSync of the converted output inside the end handler. -/

/-- Which host-level steps of convertWebMToWAV fail. -/
structure ConvertEnv where
  writeFails : Bool
  ffmpegFails : Bool
  readFails : Bool
deriving DecidableEq, Repr

/-- Existence of the two temporary files of convertWebMToWAV after return. -/
structure TempFS where
  inputExists : Bool
  outputExists : Bool
deriving DecidableEq, Repr

/-- How a call to convertWebMToWAV settles. -/
inductive ConvertOutcome
  | setupFailed
  | ffmpegError
  | readFailed
  | ok
deriving DecidableEq, Repr

/-- Trace model of convertWebMToWAV: which exit path is taken and which
temporary files remain on disk when the promise settles.

- setup failure: the outer catch unlinks both paths (neither was fully
  created), so nothing remains;
- ffmpeg error event: the error handler unlinks both, so nothing remains;
- read failure inside the end handler: the catch rejects WITHOUT reaching
  the two unlinkSync calls, so the written input file and the converted
  output file BOTH remain on disk;
- success: both files are unlinked before resolving. -/
def convertWebMToWAV (env : ConvertEnv) : ConvertOutcome × TempFS :=
  if env.writeFails then
    (ConvertOutcome.setupFailed, ⟨false, false⟩)
  else if env.ffmpegFails then
    (ConvertOutcome.ffmpegError, ⟨false, false⟩)
  else if env.readFails then
    (ConvertOutcome.readFailed, ⟨true, true⟩)
  else
    (ConvertOutcome.ok, ⟨false, false⟩)

/-! ### The transcribe-audio handler (src/electron/ipcHandlers.ts, 416-532)

Audio bytes are a `List Nat`.  The handler computes, from the filename
alone, whether the input is WebM (lowercased filename contains "webm") and
whether it is MP3 (lowercased filename ends with ".mp3"), then branches on
the shape of the API key: keys starting with "sk-or-" go to OpenRouter as
one multimodal chat message carrying the (possibly transcoded) audio plus
a format tag, every other key goes to OpenAI Whisper as a file upload with
language fixed to "en".  The WebM-to-WAV transcoding step is modelled as a
fallible function parameter `convert`; the provider transcript is the stub
parameter `t`. -/

/-- What is submitted to a transcription provider. -/
inductive Submission
  | chat (payload : List Nat) (format : String)
  | upload (payload : List Nat) (language : String)
deriving DecidableEq, Repr

/-- Result of the transcribe-audio handler: whether the WebM-to-WAV
conversion was invoked, and either an error or the submission made
together with the transcript the provider returned. -/
structure TranscribeOut where
  converted : Bool
  outcome : Except String (Submission × String)
deriving Repr

/-- The transcribe-audio handler, after the API-key presence checks.
`convert` models convertWebMToWAV (returning the WAV bytes or the error
message), `t` the transcript text the selected provider returns. -/
def transcribeAudio (convert : List Nat → Except String (List Nat))
    (t : String) (apiKey : String) (audioBuffer : List Nat)
    (filename : String) : TranscribeOut :=
  let isWebM := strIncludes (strLower filename) "webm"
  let isMp3 := strTrails (strLower filename) ".mp3"
  let audioFormat := if isMp3 then "mp3" else "wav"
  if strLeads apiKey "sk-or-" then
    if isWebM then
      match convert audioBuffer with
      | Except.error e =>
          ⟨true, Except.error ("Failed to convert WebM audio to WAV format: " ++ e)⟩
      | Except.ok wavBytes =>
          ⟨true, Except.ok (Submission.chat wavBytes "wav", t)⟩
    else
      ⟨false, Except.ok (Submission.chat audioBuffer audioFormat, t)⟩
  else
    ⟨false, Except.ok (Submission.upload audioBuffer "en", t)⟩

/-- The payload bytes submitted to the provider, if a request was made. -/
def sentPayload (o : TranscribeOut) : Option (List Nat) :=
  match o.outcome with
  | Except.ok (Submission.chat p _, _) => some p
  | Except.ok (Submission.upload p _, _) => some p
  | Except.error _ => none

/-- The format tag attached to the request (only chat requests carry one). -/
def sentFormat (o : TranscribeOut) : Option String :=
  match o.outcome with
  | Except.ok (Submission.chat _ f, _) => some f
  | _ => none

/-! ### The generate-behavioral-answer handler (ipcHandlers.ts, 534-617)

The handler checks for an API key, picks a model by the shape of the key,
sends the question to the chat-completions endpoint, and extracts
`completion.choices[0]?.message?.content || fallback`: a missing or empty
content falls back to a fixed apology string, returned as a success.
There is no check on the question text itself.  The provider behaviour is
the parameter `provider`: an error models a thrown network/provider
failure, `Except.ok content` a successful completion whose extracted
content is `content` (`none` for a missing choice, message or content). -/

/-- The fixed fallback answer returned on a degenerate provider response. -/
def fallbackAnswer : String :=
  "I apologize, but I couldn\x27t generate an answer for this question."

/-- Observable behaviour of one generate-behavioral-answer call. -/
structure GenAnswerOut where
  networkCalled : Bool
  questionSent : Option String
  modelUsed : Option String
  result : Except String String
deriving Repr

/-- The generate-behavioral-answer handler.  `hasKey` models
configHelper.hasApiKey(), `apiKey` the loaded config value (the empty
string standing for a missing/falsy key), `solutionModel` the configured
model override, `provider` the provider behaviour, `question` the
question argument. -/
def generateBehavioralAnswer (hasKey : Bool) (apiKey : String)
    (solutionModel : Option String) (provider : Except String (Option String))
    (question : String) : GenAnswerOut :=
  if hasKey = false then
    ⟨false, none, none, Except.error "API key is required for answer generation"⟩
  else if apiKey = "" then
    ⟨false, none, none, Except.error "API key not found"⟩
  else
    let modelToUse :=
      if strLeads apiKey "sk-or-" then solutionModel.getD "openai/gpt-4o"
      else solutionModel.getD "gpt-4o"
    match provider with
    | Except.error e => ⟨true, some question, some modelToUse, Except.error e⟩
    | Except.ok content =>
        let answer :=
          match content with
          | none => fallbackAnswer
          | some c => if c = "" then fallbackAnswer else c
        ⟨true, some question, some modelToUse, Except.ok answer⟩

/-! ### startRecording and onstop (src/src/components/AudioRecorder.tsx)

startRecording requests the microphone, picks the first recording MIME
type the host MediaRecorder supports from a fixed preference list, and on
the "audio/webm;codecs=opus" fallback shows an informational toast.  If
getUserMedia rejects, the catch shows an error toast and no stream was
acquired.  If the stream is acquired but a later setup step throws
(MediaRecorder construction or start), the same catch runs; it does NOT
stop the acquired tracks.  The onstop handler concatenates the collected
chunks into one blob and then stops every track of the stream,
unconditionally. -/

/-- The MIME type selection outcome: the chosen type, the file extension
used for the recording filename, and whether the WebM fallback branch
(which shows the informational toast) was reached. -/
structure MimeChoice where
  mimeType : String
  fileExt : String
  fallbackNotice : Bool
deriving DecidableEq, Repr

/-- The if/else-if chain of startRecording over
MediaRecorder.isTypeSupported, in source order. -/
def selectMime (supported : String → Bool) : MimeChoice :=
  if supported "audio/mp3" then ⟨"audio/mp3", "mp3", false⟩
  else if supported "audio/wav" then ⟨"audio/wav", "wav", false⟩
  else if supported "audio/wave" then ⟨"audio/wave", "wav", false⟩
  else if supported "audio/x-wav" then ⟨"audio/x-wav", "wav", false⟩
  else ⟨"audio/webm;codecs=opus", "webm", true⟩

/-- The encoding-selection policy as the spec words it: the first entry of
the strict preference list that the host supports, else the WebM fallback
with a user-visible notice.  Stated separately from `selectMime` so the
two can be proved equal. -/
def selectMimeSpec (supported : String → Bool) : MimeChoice :=
  match [("audio/mp3", "mp3"), ("audio/wav", "wav"), ("audio/wave", "wav"),
         ("audio/x-wav", "wav")].find? (fun p => supported p.1) with
  | some p => ⟨p.1, p.2, false⟩
  | none => ⟨"audio/webm;codecs=opus", "webm", true⟩

/-- Toast shown when recording starts. -/
def recStartToast : Toast :=
  ⟨"Recording", "Audio recording started", Sev.success⟩

/-- Toast shown by the startRecording catch block. -/
def startErrorToast : Toast :=
  ⟨"Error", "Failed to start recording. Please check microphone permissions.", Sev.error⟩

/-- Toast shown when the WebM fallback encoding is selected. -/
def webmInfoToast : Toast :=
  ⟨"Info", "Recording in WebM format. Will be converted to WAV for OpenRouter compatibility.", Sev.neutral⟩

/-- Host behaviour for one startRecording call: whether getUserMedia
resolves with a stream, whether the MediaRecorder setup after it succeeds,
and which MIME types MediaRecorder.isTypeSupported accepts. -/
structure CaptureEnv where
  micAvailable : Bool
  recorderOk : Bool
  supported : String → Bool

/-- Observable state after startRecording returns: whether the acquired
stream tracks are still live, whether recording started, and the toasts
shown, in order. -/
structure CaptureOut where
  tracksLive : Bool
  isRecording : Bool
  toasts : List Toast

/-- Trace model of startRecording.  On the path where the stream was
acquired but recorder setup throws, the catch block only shows the error
toast: the tracks stay live. -/
def startRecording (env : CaptureEnv) : CaptureOut :=
  if env.micAvailable = false then
    ⟨false, false, [startErrorToast]⟩
  else
    let choice := selectMime env.supported
    let selectionToasts := if choice.fallbackNotice then [webmInfoToast] else []
    if env.recorderOk = false then
      ⟨true, false, selectionToasts ++ [startErrorToast]⟩
    else
      ⟨true, true, selectionToasts ++ [recStartToast]⟩

/-- Result of the mediaRecorder onstop handler: the assembled blob and
whether the stream tracks are still live afterwards. -/
structure StopOut where
  audioBlob : List Nat
  tracksLive : Bool
deriving DecidableEq, Repr

/-- The onstop handler: concatenate the collected chunks into one blob,
then stop every track of the stream. -/
def mediaRecorderOnStop (chunks : List (List Nat)) : StopOut :=
  ⟨chunks.flatten, false⟩

/-! ### processAudio (AudioRecorder.tsx, 103-137)

processAudio shows a processing toast, transcribes, and then branches on
the truthiness of the trimmed transcript: non-empty invokes answer
generation and fires onTranscriptionComplete once; empty shows a warning
toast and does not invoke answer generation.  Any thrown error lands in
the catch, which shows an error toast.  The two IPC calls are modelled as
Except-valued parameters. -/

/-- Toast shown when processing starts. -/
def processingToast : Toast :=
  ⟨"Processing", "Transcribing audio and generating answer...", Sev.neutral⟩

/-- Warning toast for an empty transcript. -/
def warnToast : Toast :=
  ⟨"Warning", "No speech detected in the recording", Sev.error⟩

/-- Toast shown on a fully successful run. -/
def successToast : Toast :=
  ⟨"Success", "Audio processed and answer generated!", Sev.success⟩

/-- Toast shown by the processAudio catch block. -/
def processErrorToast : Toast :=
  ⟨"Error", "Failed to process audio. Please try again.", Sev.error⟩

/-- Observable behaviour of one processAudio call: whether the
answer-generation IPC call was made, the onTranscriptionComplete
invocations, the toasts in order, and whether the catch block ran. -/
structure ProcessOut where
  answerGenInvoked : Bool
  completions : List (String × String)
  toasts : List Toast
  failed : Bool
deriving DecidableEq, Repr

/-- Trace model of processAudio.  `tr` is the transcribe-audio IPC result
(the transcript text), `gen` the generate-behavioral-answer IPC result.
The source tests `if (transcribedText.trim())`, whose false branch is
exactly the empty trimmed string. -/
def processAudio (tr : Except String String) (gen : Except String String) :
    ProcessOut :=
  match tr with
  | Except.error _ => ⟨false, [], [processingToast, processErrorToast], true⟩
  | Except.ok text =>
    if strTrim text = "" then
      ⟨false, [], [processingToast, warnToast], false⟩
    else
      match gen with
      | Except.error _ => ⟨true, [], [processingToast, processErrorToast], true⟩
      | Except.ok answer =>
          ⟨true, [(text, answer)], [processingToast, successToast], false⟩

/-! ## Shared lemmas -/

/-- processAudio on a transcript whose trimmed value is empty takes the
warning branch: no answer generation, no catch, a warning toast. -/
theorem processAudio_of_empty_trim (text : String) (gen : Except String String)
    (h : strTrim text = "") :
    processAudio (Except.ok text) gen
      = ⟨false, [], [processingToast, warnToast], false⟩ := by
  simp [processAudio, h]

/-! ## Claims -/

/-- Claim C1: the spec says every temporary file created by
convertWebMToWAV is deleted on every exit path, including the failure to
read the converted output.  The code violates this: when the write and the
ffmpeg conversion succeed but reading the converted WAV file back throws,
the catch inside the end handler rejects before the two unlinkSync calls
run, so both temporary files remain on disk.  The other three exit paths
do clean up, confirming that unconditional cleanup is the intent of the
surrounding code. -/
theorem convert_read_failure_leaves_temp_files :
    convertWebMToWAV ⟨false, false, true⟩ = (ConvertOutcome.readFailed, ⟨true, true⟩)
    ∧ convertWebMToWAV ⟨false, false, false⟩ = (ConvertOutcome.ok, ⟨false, false⟩)
    ∧ convertWebMToWAV ⟨false, true, false⟩ = (ConvertOutcome.ffmpegError, ⟨false, false⟩)
    ∧ convertWebMToWAV ⟨true, false, false⟩ = (ConvertOutcome.setupFailed, ⟨false, false⟩) :=
  ⟨rfl, rfl, rfl, rfl⟩

/-- Claim C5: when the transcription provider returns a transcript whose
trimmed value is empty, processAudio does not invoke the answer-generation
stage, does not take the failure path, and shows the warning toast. -/
theorem empty_transcript_completes_with_warning (text : String)
    (gen : Except String String) (h : strTrim text = "") :
    (processAudio (Except.ok text) gen).answerGenInvoked = false
    ∧ (processAudio (Except.ok text) gen).failed = false
    ∧ warnToast ∈ (processAudio (Except.ok text) gen).toasts := by
  rw [processAudio_of_empty_trim text gen h]
  exact ⟨rfl, rfl, by decide⟩

/-- Witness for C5 at the whitespace-only transcript " ". -/
theorem empty_transcript_completes_with_warning_witness :
    (processAudio (Except.ok " ") (Except.ok "a")).answerGenInvoked = false
    ∧ (processAudio (Except.ok " ") (Except.ok "a")).failed = false
    ∧ warnToast ∈ (processAudio (Except.ok " ") (Except.ok "a")).toasts :=
  empty_transcript_completes_with_warning " " (Except.ok "a") (by decide)

/-- Claim C8: the encoding selection of startRecording equals the
spec-side first-supported-entry policy over the strict preference list
audio/mp3, audio/wav, audio/wave, audio/x-wav with the WebM fallback, and
when the microphone was acquired the informational toast is shown exactly
when the fallback branch was reached. -/
theorem mime_selection_follows_preference_order :
    (∀ supported : String → Bool, selectMime supported = selectMimeSpec supported)
    ∧ (∀ env : CaptureEnv, env.micAvailable = true →
        (webmInfoToast ∈ (startRecording env).toasts
          ↔ (selectMime env.supported).fallbackNotice = true)) := by
  constructor
  · intro s
    unfold selectMime selectMimeSpec
    cases h1 : s "audio/mp3" <;> cases h2 : s "audio/wav" <;>
      cases h3 : s "audio/wave" <;> cases h4 : s "audio/x-wav" <;>
        simp [h1, h2, h3, h4]
  · intro env hm
    cases hr : env.recorderOk <;>
      cases hf : (selectMime env.supported).fallbackNotice <;>
        simp [startRecording, hm, hr, hf] <;> decide

/-- Witness for C8 at a host supporting no listed type with the
microphone acquired. -/
theorem mime_selection_follows_preference_order_witness :
    webmInfoToast ∈ (startRecording ⟨true, true, fun _ => false⟩).toasts
      ↔ (selectMime (fun _ => false)).fallbackNotice = true :=
  mime_selection_follows_preference_order.2 ⟨true, true, fun _ => false⟩ rfl

/-- Claim C9: when the provider response to a generation request has a
missing first-choice message content, or an empty one, the handler returns
the fixed fallback answer as a success, and that fallback is non-empty. -/
theorem degenerate_response_yields_fallback_answer (k : String)
    (m : Option String) (q : String) (hk : ¬ k = "") :
    (generateBehavioralAnswer true k m (Except.ok none) q).result
      = Except.ok fallbackAnswer
    ∧ (generateBehavioralAnswer true k m (Except.ok (some "")) q).result
      = Except.ok fallbackAnswer
    ∧ (generateBehavioralAnswer true k m (Except.ok none) q).networkCalled = true
    ∧ ¬ fallbackAnswer = "" := by
  unfold generateBehavioralAnswer
  simp [hk]
  decide

/-- Witness for C9 at an OpenRouter-shaped key. -/
theorem degenerate_response_yields_fallback_answer_witness :
    (generateBehavioralAnswer true "sk-or-v1-w" none (Except.ok none) "Q").result
      = Except.ok fallbackAnswer
    ∧ (generateBehavioralAnswer true "sk-or-v1-w" none (Except.ok (some "")) "Q").result
      = Except.ok fallbackAnswer
    ∧ (generateBehavioralAnswer true "sk-or-v1-w" none (Except.ok none) "Q").networkCalled = true
    ∧ ¬ fallbackAnswer = "" :=
  degenerate_response_yields_fallback_answer "sk-or-v1-w" none "Q" (by decide)

/-- Claim C2 counterexample: the generate-behavioral-answer handler
performs no emptiness check on the question.  Invoked with the empty
question and a valid key it issues the provider request (networkCalled is
true, the empty question is sent) and returns the provider answer instead
of failing with EmptyInput. -/
theorem generate_answer_empty_question_calls_network :
    generateBehavioralAnswer true "sk-or-v1-k" none (Except.ok (some "answer")) ""
      = ⟨true, some "", some "openai/gpt-4o", Except.ok "answer"⟩ := rfl

/-- Claim C2 amended: the trimmed-emptiness guard lives in the
orchestrator, not in the answer-generation operation.  processAudio never
invokes answer generation when the trimmed transcript is empty (and does
not fail), while the handler itself issues a provider request for the
empty question whenever the credential checks pass. -/
theorem empty_question_guarded_by_orchestrator :
    (∀ (text : String) (gen : Except String String), strTrim text = "" →
      (processAudio (Except.ok text) gen).answerGenInvoked = false
      ∧ (processAudio (Except.ok text) gen).failed = false)
    ∧ (∀ (k : String) (m : Option String) (provider : Except String (Option String)),
        ¬ k = "" →
        (generateBehavioralAnswer true k m provider "").networkCalled = true) := by
  constructor
  · intro text gen h
    rw [processAudio_of_empty_trim text gen h]
    exact ⟨rfl, rfl⟩
  · intro k m provider hk
    unfold generateBehavioralAnswer
    simp [hk]
    cases provider <;> simp

/-- Witness for the amended C2 at a whitespace transcript and at a
Whisper-shaped key. -/
theorem empty_question_guarded_by_orchestrator_witness :
    (processAudio (Except.ok "  ") (Except.ok "a")).answerGenInvoked = false
    ∧ (generateBehavioralAnswer true "sk-test" none (Except.ok none) "").networkCalled
        = true :=
  ⟨(empty_question_guarded_by_orchestrator.1 "  " (Except.ok "a") (by decide)).1,
   empty_question_guarded_by_orchestrator.2 "sk-test" none (Except.ok none) (by decide)⟩

/-- Claim C3 counterexample: on the provider-B (Whisper) path a WebM
recording is uploaded unconverted — the submitted payload is the original
buffer, not the output of the conversion function, so a webm payload IS
sent to a transcription provider. -/
theorem webm_payload_sent_to_whisper :
    transcribeAudio (fun _ => Except.ok [9, 9]) "t" "sk-abc" [1, 2, 3] "recording.webm"
      = ⟨false, Except.ok (Submission.upload [1, 2, 3] "en", "t")⟩ := rfl

/-- Claim C3 amended: on the provider-A (OpenRouter) path a WebM
recording is always transcoded and submitted with the tag "wav" (or the
call fails with a conversion error), and no request on any path ever
carries a "webm" format tag; on the provider-B path the recording is
uploaded unconverted with no format tag. -/
theorem webm_normalized_on_openrouter_path :
    (∀ (c : List Nat → Except String (List Nat)) (t k : String)
       (buf : List Nat) (fn : String),
      strLeads k "sk-or-" = true → strIncludes (strLower fn) "webm" = true →
      transcribeAudio c t k buf fn
        = ⟨true, match c buf with
                 | Except.ok b => Except.ok (Submission.chat b "wav", t)
                 | Except.error e =>
                     Except.error ("Failed to convert WebM audio to WAV format: " ++ e)⟩)
    ∧ (∀ (c : List Nat → Except String (List Nat)) (t k : String)
         (buf : List Nat) (fn : String),
        sentFormat (transcribeAudio c t k buf fn) = none
        ∨ sentFormat (transcribeAudio c t k buf fn) = some "wav"
        ∨ sentFormat (transcribeAudio c t k buf fn) = some "mp3") := by
  constructor
  · intro c t k buf fn hk hw
    unfold transcribeAudio
    simp [hk, hw]
    cases c buf <;> rfl
  · intro c t k buf fn
    unfold transcribeAudio sentFormat
    cases hk : strLeads k "sk-or-" <;>
      cases hw : strIncludes (strLower fn) "webm" <;>
        cases hm : strTrails (strLower fn) ".mp3" <;>
          simp [hk, hw, hm] <;> cases c buf <;> simp

/-- Witness for the amended C3 on the OpenRouter path with a WebM
filename. -/
theorem webm_normalized_on_openrouter_path_witness :
    transcribeAudio (fun _ => Except.ok [7]) "t" "sk-or-1" [1] "recording.webm"
      = ⟨true, Except.ok (Submission.chat [7] "wav", "t")⟩ :=
  webm_normalized_on_openrouter_path.1 (fun _ => Except.ok [7]) "t" "sk-or-1" [1]
    "recording.webm" (by decide) (by decide)

/-- Claim C4 counterexample: when getUserMedia succeeds but the
MediaRecorder setup throws afterwards, startRecording returns from its
catch without stopping the acquired tracks — the device handle stays
live although recording never started. -/
theorem recorder_failure_leaks_tracks :
    (startRecording ⟨true, false, fun _ => false⟩).tracksLive = true
    ∧ (startRecording ⟨true, false, fun _ => false⟩).isRecording = false :=
  ⟨rfl, rfl⟩

/-- Claim C4 amended: the onstop handler stops the stream tracks
unconditionally, but startRecording leaves the tracks live on exactly one
non-recording path: the device was acquired and the recorder setup then
failed.  The boolean equation characterises the leak precisely. -/
theorem track_release_behavior :
    (∀ chunks : List (List Nat), (mediaRecorderOnStop chunks).tracksLive = false)
    ∧ (∀ env : CaptureEnv,
        (!(startRecording env).isRecording && (startRecording env).tracksLive)
          = (env.micAvailable && !env.recorderOk)) := by
  constructor
  · intro chunks
    rfl
  · intro env
    cases hm : env.micAvailable <;> cases hr : env.recorderOk <;>
      simp [startRecording, hm, hr]

/-- Claim C6: the transcribe-audio handler selects exactly one of two
protocols by the shape of the credential alone.  A key starting with
"sk-or-" always yields either a multimodal chat submission carrying a
format tag (or a conversion error on the way to it); any other key always
yields exactly the file-upload submission with the untouched buffer and
language fixed to "en". -/
theorem provider_selected_by_key_shape (c : List Nat → Except String (List Nat))
    (t apiKey : String) (buf : List Nat) (fn : String) :
    if strLeads apiKey "sk-or-" = true then
      (∃ e, (transcribeAudio c t apiKey buf fn).outcome = Except.error e)
      ∨ (∃ p f, (transcribeAudio c t apiKey buf fn).outcome
            = Except.ok (Submission.chat p f, t))
    else
      transcribeAudio c t apiKey buf fn
        = ⟨false, Except.ok (Submission.upload buf "en", t)⟩ := by
  by_cases hk : strLeads apiKey "sk-or-" = true
  · simp only [hk, if_true]
    unfold transcribeAudio
    simp only [hk, if_true]
    cases hw : strIncludes (strLower fn) "webm" <;> simp
    cases c buf <;> simp
  · simp only [hk, if_false]
    unfold transcribeAudio
    simp [Bool.of_not_eq_true hk]

/-- Claim C7: for a recording already encoded as wav or mp3 (filename
recording.wav or recording.mp3, as produced by processAudio), the
transcription handler never invokes the WebM-to-WAV conversion and the
payload submitted to the provider is byte-identical to the captured
buffer, on both provider paths. -/
theorem wav_mp3_passthrough (ext : String) (c : List Nat → Except String (List Nat))
    (t k : String) (buf : List Nat) (h : ext = "wav" ∨ ext = "mp3") :
    (transcribeAudio c t k buf ("recording." ++ ext)).converted = false
    ∧ sentPayload (transcribeAudio c t k buf ("recording." ++ ext)) = some buf := by
  have hsplit : ∀ fn : String, strIncludes (strLower fn) "webm" = false →
      (transcribeAudio c t k buf fn).converted = false
      ∧ sentPayload (transcribeAudio c t k buf fn) = some buf := by
    intro fn hw
    unfold transcribeAudio sentPayload
    cases hk : strLeads k "sk-or-" <;>
      cases hm : strTrails (strLower fn) ".mp3" <;> simp [hk, hw, hm]
  rcases h with h | h <;> subst h
  · exact hsplit ("recording." ++ "wav") (by decide)
  · exact hsplit ("recording." ++ "mp3") (by decide)

/-- Witness for C7 at the wav extension. -/
theorem wav_mp3_passthrough_witness :
    (transcribeAudio (fun _ => Except.ok []) "t" "sk-or-x" [1, 2]
        ("recording." ++ "wav")).converted = false
    ∧ sentPayload (transcribeAudio (fun _ => Except.ok []) "t" "sk-or-x" [1, 2]
        ("recording." ++ "wav")) = some [1, 2] :=
  wav_mp3_passthrough "wav" (fun _ => Except.ok []) "t" "sk-or-x" [1, 2] (Or.inl rfl)

/-- Claim C10 counterexample: conversion is NOT triggered exactly when the
lowercased filename contains "webm" — with a Whisper-shaped key and the
filename question.webm the handler performs no conversion although the
filename contains the substring. -/
theorem whisper_webm_filename_skips_conversion :
    (transcribeAudio (fun _ => Except.ok [0]) "s" "sk-proj-7" [4, 5, 6]
        "question.webm").converted = false
    ∧ strIncludes (strLower "question.webm") "webm" = true :=
  ⟨rfl, by decide⟩

/-- Claim C10 amended: the declared format and the conversion decision are
computed from the filename string alone, but conversion is triggered
exactly when the key is OpenRouter-shaped AND the lowercased filename
contains "webm".  A filename that neither ends in ".mp3" nor contains
"webm" is submitted unconverted — tagged "wav" on the provider-A path and
untagged on the provider-B upload; a filename ending in ".mp3" without
"webm" is tagged "mp3" on the provider-A path. -/
theorem format_from_filename_only :
    (∀ (c : List Nat → Except String (List Nat)) (t k : String)
       (buf : List Nat) (fn : String),
      (transcribeAudio c t k buf fn).converted
        = (strLeads k "sk-or-" && strIncludes (strLower fn) "webm"))
    ∧ (∀ (c : List Nat → Except String (List Nat)) (t k : String)
         (buf : List Nat) (fn : String),
        strTrails (strLower fn) ".mp3" = false →
        strIncludes (strLower fn) "webm" = false →
        transcribeAudio c t k buf fn
          = ⟨false, Except.ok
              ((if strLeads k "sk-or-" then Submission.chat buf "wav"
                else Submission.upload buf "en"), t)⟩)
    ∧ (∀ (c : List Nat → Except String (List Nat)) (t k : String)
         (buf : List Nat) (fn : String),
        strTrails (strLower fn) ".mp3" = true → strLeads k "sk-or-" = true →
        strIncludes (strLower fn) "webm" = false →
        sentFormat (transcribeAudio c t k buf fn) = some "mp3") := by
  refine ⟨?_, ?_, ?_⟩
  · intro c t k buf fn
    unfold transcribeAudio
    cases hk : strLeads k "sk-or-" <;>
      cases hw : strIncludes (strLower fn) "webm" <;> simp [hk, hw]
    cases c buf <;> rfl
  · intro c t k buf fn hm hw
    unfold transcribeAudio
    cases hk : strLeads k "sk-or-" <;> simp [hk, hw, hm]
  · intro c t k buf fn hm hk hw
    unfold transcribeAudio sentFormat
    simp [hk, hw, hm]

/-- Witness for the amended C10 at a wav filename and a Whisper-shaped
key. -/
theorem format_from_filename_only_witness :
    transcribeAudio (fun _ => Except.ok [0]) "t" "sk-x" [1, 2] "recording.wav"
      = ⟨false, Except.ok
          ((if strLeads "sk-x" "sk-or-" then Submission.chat [1, 2] "wav"
            else Submission.upload [1, 2] "en"), "t")⟩ :=
  format_from_filename_only.2.1 (fun _ => Except.ok [0]) "t" "sk-x" [1, 2]
    "recording.wav" (by decide) (by decide)

end OIC
